import Mathlib

/-!
Verification of the ClickHouse-vs-Elasticsearch benchmarking harness
(`src/benchmarks/run_healthcare_benchmarks.py` and
`src/benchmarks/run_benchmarks.py`).

The Python code is shallowly embedded: wall-clock latencies produced by the
backends are modelled as a stream `Nat → ℚ × Nat` (per-call elapsed time in
milliseconds and result cardinality) supplied by a mock executor, fallible
query execution is `Except String`, and the `results` JSON dictionary is a
Lean structure.  All timings are exact rationals; `std_dev` is tracked via
its square (`std_dev_sq`), since the square root of a rational is not
rational — theorems about the standard deviation itself quote
`Real.sqrt std_dev_sq`.
-/

/-! ### List statistics (Python `statistics.mean`, `min`, `max`, `statistics.stdev`) -/

/-- Python `statistics.mean`: arithmetic mean of a (nonempty) list. -/
def listMean (l : List ℚ) : ℚ := l.sum / l.length

/-- Python builtin `min` over a nonempty list (0 as junk value on `[]`,
which the source never hits since `runs ≥ 1`). -/
def listMin : List ℚ → ℚ
  | [] => 0
  | [x] => x
  | x :: y :: ys => min x (listMin (y :: ys))

/-- Python builtin `max` over a nonempty list. -/
def listMax : List ℚ → ℚ
  | [] => 0
  | [x] => x
  | x :: y :: ys => max x (listMax (y :: ys))

/-- Square of Python `statistics.stdev`: sample variance with the `n - 1`
divisor. The source only calls it when `len(times) > 1`. -/
def stdevSq (l : List ℚ) : ℚ :=
  (l.map (fun x => (x - listMean l) ^ 2)).sum / ((l.length : ℚ) - 1)

/-! ### Timing protocol (`run_clickhouse_query` / `run_elasticsearch_query`,
`run_healthcare_benchmarks.py` lines 48-101) -/

/-- The statistics dictionary returned by `run_clickhouse_query`.
`std_dev_sq` is the square of the source's `std_dev` entry. -/
structure TimingResult where
  avg_time : ℚ
  min_time : ℚ
  max_time : ℚ
  std_dev_sq : ℚ
  runs : Nat
  warmup_runs : Nat
  query : String
  row_count : Nat
deriving Repr, DecidableEq

/-- The statistics dictionary returned by `run_elasticsearch_query`
(same shape, `hits` instead of `row_count`). -/
structure EsTimingResult where
  avg_time : ℚ
  min_time : ℚ
  max_time : ℚ
  std_dev_sq : ℚ
  runs : Nat
  warmup_runs : Nat
  hits : Nat
deriving Repr, DecidableEq

/-- `run_clickhouse_query(client, database, query, warmup, runs)`.
The mock executor `exec` gives, for the `i`-th call issued on the
connection, the elapsed wall-clock milliseconds and the row count of the
returned result.  The first `warmup` calls are issued and discarded; the
next `runs` calls are timed.  `row_count` comes from the final measured
call only (`result` holds the last call's rows; 0 when `runs = 0`, matching
`result = None`). -/
def run_clickhouse_query (exec : Nat → ℚ × Nat) (query : String)
    (warmup runs : Nat) : TimingResult :=
  let times := (List.range runs).map (fun i => (exec (warmup + i)).1)
  { avg_time := listMean times
    min_time := listMin times
    max_time := listMax times
    std_dev_sq := if 1 < times.length then stdevSq times else 0
    runs := runs
    warmup_runs := warmup
    query := query
    row_count := if runs = 0 then 0 else (exec (warmup + runs - 1)).2 }

/-- `run_elasticsearch_query(es, index, query, warmup, runs)`: identical
protocol; the result cardinality is the final call's
`hits.total.value`. -/
def run_elasticsearch_query (exec : Nat → ℚ × Nat)
    (warmup runs : Nat) : EsTimingResult :=
  let times := (List.range runs).map (fun i => (exec (warmup + i)).1)
  { avg_time := listMean times
    min_time := listMin times
    max_time := listMax times
    std_dev_sq := if 1 < times.length then stdevSq times else 0
    runs := runs
    warmup_runs := warmup
    hits := if runs = 0 then 0 else (exec (warmup + runs - 1)).2 }

/-- Mock executor for the spec scenario: 2 warmup calls (latencies 99, 99,
discarded) followed by the fixed measured latencies [10, 20, 10, 20, 10]
milliseconds. -/
def mockLatencies : Nat → ℚ × Nat :=
  fun i => (([99, 99, 10, 20, 10, 20, 10] : List ℚ).getD i 0, 3)

/-! ### Comparison step (`main`, lines 652-660) -/

/-- The winner/speedup computation of `main`:
`if ch_result['avg_time'] < es_result['avg_time']` then ClickHouse wins
with speedup `es/ch`, otherwise (including exact ties) Elasticsearch wins
with speedup `ch/es`. -/
def compareMeans (ch es : ℚ) : String × ℚ :=
  if ch < es then ("clickhouse", es / ch) else ("elasticsearch", ch / es)

/-! ### Benchmark catalog (`get_fair_benchmarks`, `get_clickhouse_strength_benchmarks`,
`get_elasticsearch_strength_benchmarks`, `get_all_benchmarks`, lines 104-527)

Python dicts preserve insertion order, so each catalog function becomes an
ordered `List Benchmark` with the dict key stored in the `key` field;
`dict.update` on disjoint keys is list append.  Elasticsearch request
bodies are transcribed as a small JSON value type.  SQL text is transcribed
with the f-string interpolations made explicit; runs of whitespace inside
the triple-quoted query literals are normalized to single spaces and SQL
string quotes are written with the `\x27` escape. -/

/-- JSON-like values: the shape of the Elasticsearch request dictionaries. -/
inductive JVal where
  | jstr (s : String)
  | jnum (n : Int)
  | jobj (fields : List (String × JVal))
  | jarr (elems : List JVal)

open JVal in
/-- A benchmark definition dictionary.  Keys that a given definition omits
(`es_not_possible`, `why_ch_wins`, `why_es_wins`, `es_limitation`) are
modelled with `Bool`/`Option` defaults: absent = `false`/`none`.  An
impossible-on-Elasticsearch definition has `elasticsearch := none`
(Python `None`), not an empty request. -/
structure Benchmark where
  key : String
  name : String
  category : String
  description : String
  clickhouse : String
  elasticsearch : Option JVal
  es_index : Option String
  es_not_possible : Bool := false
  why_ch_wins : Option String := none
  why_es_wins : Option String := none
  es_limitation : Option String := none

open JVal in
/-- `get_fair_benchmarks(database, index_prefix)`: the four FAIR
definitions, in dict insertion order. -/
def get_fair_benchmarks (database index_prefix : String) : List Benchmark :=
  [ { key := "simple_aggregation"
      name := "Simple Aggregation"
      category := "fair"
      description := "GROUP BY single field with COUNT and AVG - equivalent on both systems"
      clickhouse := "SELECT department, COUNT(*) as event_count, AVG(cost_usd) as avg_cost FROM "
        ++ database ++ ".medical_events GROUP BY department ORDER BY event_count DESC"
      elasticsearch := some (jobj
        [("size", jnum 0),
         ("aggs", jobj
           [("by_department", jobj
             [("terms", jobj
               [("field", jstr "department"), ("size", jnum 20),
                ("order", jobj [("_count", jstr "desc")])]),
              ("aggs", jobj
               [("avg_cost", jobj [("avg", jobj [("field", jstr "cost_usd")])])])])])])
      es_index := some ( index_prefix ++ "_medical_events") },
    { key := "multi_field_groupby"
      name := "Multi-Field GROUP BY"
      category := "fair"
      description := "GROUP BY two fields with aggregations - equivalent on both systems"
      clickhouse := "SELECT department, severity, COUNT(*) as event_count, AVG(cost_usd) as avg_cost FROM "
        ++ database ++ ".medical_events GROUP BY department, severity ORDER BY event_count DESC"
      elasticsearch := some (jobj
        [("size", jnum 0),
         ("aggs", jobj
           [("by_department", jobj
             [("terms", jobj [("field", jstr "department"), ("size", jnum 20)]),
              ("aggs", jobj
               [("by_severity", jobj
                 [("terms", jobj [("field", jstr "severity"), ("size", jnum 10)]),
                  ("aggs", jobj
                   [("avg_cost", jobj [("avg", jobj [("field", jstr "cost_usd")])])])])])])])])
      es_index := some ( index_prefix ++ "_medical_events") },
    { key := "range_filter_agg"
      name := "Range Filter + Aggregation"
      category := "fair"
      description := "Filter by cost range then aggregate - equivalent on both systems"
      clickhouse := "SELECT department, COUNT(*) as event_count, AVG(cost_usd) as avg_cost, SUM(cost_usd) as total_cost FROM "
        ++ database ++ ".medical_events WHERE cost_usd BETWEEN 500 AND 5000 GROUP BY department ORDER BY total_cost DESC"
      elasticsearch := some (jobj
        [("size", jnum 0),
         ("query", jobj
           [("range", jobj
             [("cost_usd", jobj [("gte", jnum 500), ("lte", jnum 5000)])])]),
         ("aggs", jobj
           [("by_department", jobj
             [("terms", jobj
               [("field", jstr "department"), ("size", jnum 20),
                ("order", jobj [("total_cost", jstr "desc")])]),
              ("aggs", jobj
               [("avg_cost", jobj [("avg", jobj [("field", jstr "cost_usd")])]),
                ("total_cost", jobj [("sum", jobj [("field", jstr "cost_usd")])])])])])])
      es_index := some ( index_prefix ++ "_medical_events") },
    { key := "cardinality_count"
      name := "Cardinality Count"
      category := "fair"
      description := "COUNT DISTINCT equivalent - same operation on both systems"
      clickhouse := "SELECT department, COUNT(*) as event_count, COUNT(DISTINCT patient_id) as unique_patients FROM "
        ++ database ++ ".medical_events GROUP BY department ORDER BY unique_patients DESC"
      elasticsearch := some (jobj
        [("size", jnum 0),
         ("aggs", jobj
           [("by_department", jobj
             [("terms", jobj
               [("field", jstr "department"), ("size", jnum 20),
                ("order", jobj [("unique_patients", jstr "desc")])]),
              ("aggs", jobj
               [("unique_patients", jobj
                 [("cardinality", jobj [("field", jstr "patient_id")])])])])])])
      es_index := some ( index_prefix ++ "_medical_events") } ]

open JVal in
/-- `get_clickhouse_strength_benchmarks(database, index_prefix)`: the four
CLICKHOUSE STRENGTHS definitions; three of them carry
`es_not_possible := true` with `elasticsearch := none`. -/
def get_clickhouse_strength_benchmarks (database index_prefix : String) : List Benchmark :=
  [ { key := "complex_join"
      name := "Complex JOIN"
      category := "clickhouse_strength"
      description := "Native SQL JOIN across tables - ES cannot do this"
      why_ch_wins := some "ClickHouse supports native SQL JOINs. Elasticsearch has no JOIN capability."
      es_not_possible := true
      clickhouse := "SELECT p.primary_condition, p.insurance_type, COUNT(*) as event_count, AVG(e.cost_usd) as avg_cost FROM "
        ++ database ++ ".patients p JOIN " ++ database
        ++ ".medical_events e ON p.patient_id = e.patient_id WHERE p.age > 50 GROUP BY p.primary_condition, p.insurance_type ORDER BY event_count DESC LIMIT 20"
      elasticsearch := none
      es_index := none
      es_limitation := some "Elasticsearch cannot perform JOINs between indices. Requires denormalization or application-side joins with multiple queries." },
    { key := "time_series_window"
      name := "Time-Series Analysis"
      category := "clickhouse_strength"
      description := "Daily time bucketing with multiple aggregations - ClickHouse optimized for time-series"
      why_ch_wins := some "ClickHouse has optimized date functions and columnar storage excels at time-series scans."
      clickhouse := "SELECT toDate(timestamp) as date, COUNT(*) as event_count, SUM(cost_usd) as daily_revenue, AVG(cost_usd) as avg_cost, COUNT(DISTINCT patient_id) as unique_patients FROM "
        ++ database ++ ".medical_events GROUP BY date ORDER BY date DESC LIMIT 365"
      elasticsearch := some (jobj
        [("size", jnum 0),
         ("aggs", jobj
           [("by_date", jobj
             [("date_histogram", jobj
               [("field", jstr "timestamp"),
                ("calendar_interval", jstr "day")]),
              ("aggs", jobj
               [("daily_revenue", jobj [("sum", jobj [("field", jstr "cost_usd")])]),
                ("avg_cost", jobj [("avg", jobj [("field", jstr "cost_usd")])]),
                ("unique_patients", jobj
                 [("cardinality", jobj [("field", jstr "patient_id")])])])])])])
      es_index := some ( index_prefix ++ "_medical_events") },
    { key := "subquery_filter"
      name := "Subquery Filter"
      category := "clickhouse_strength"
      description := "Filter using subquery result - ES cannot do dynamic subqueries"
      why_ch_wins := some "ClickHouse supports subqueries natively. Elasticsearch cannot compute dynamic thresholds."
      es_not_possible := true
      clickhouse := "SELECT department, COUNT(*) as high_cost_events, AVG(cost_usd) as avg_cost FROM "
        ++ database ++ ".medical_events WHERE cost_usd > ( SELECT AVG(cost_usd) FROM "
        ++ database ++ ".medical_events ) GROUP BY department ORDER BY high_cost_events DESC"
      elasticsearch := none
      es_index := none
      es_limitation := some "Elasticsearch cannot execute subqueries. Requires multiple API calls and application-side logic to compute dynamic thresholds." },
    { key := "advanced_sql"
      name := "Advanced SQL Features"
      category := "clickhouse_strength"
      description := "HAVING clause + exact percentiles + ORDER BY aggregate + precise LIMIT"
      why_ch_wins := some "Native SQL with HAVING, exact percentile calculations, complex ORDER BY, and precise LIMIT control."
      es_not_possible := true
      clickhouse := "SELECT department, severity, COUNT(*) as event_count, AVG(cost_usd) as avg_cost, quantile(0.95)(cost_usd) as p95_cost FROM "
        ++ database ++ ".medical_events GROUP BY department, severity HAVING event_count > 1000 ORDER BY avg_cost DESC LIMIT 25"
      elasticsearch := none
      es_index := none
      es_limitation := some "Elasticsearch cannot do: (1) Exact percentiles (uses TDigest approximation), (2) True HAVING semantics (bucket_selector is limited), (3) Precise ORDER BY aggregate + LIMIT. These SQL features have no equivalent in ES." } ]

open JVal in
/-- `get_elasticsearch_strength_benchmarks(database, index_prefix)`: the
four ELASTICSEARCH STRENGTHS definitions. -/
def get_elasticsearch_strength_benchmarks (database index_prefix : String) : List Benchmark :=
  [ { key := "fulltext_search"
      name := "Full-Text Search"
      category := "elasticsearch_strength"
      description := "Text search with relevance scoring - Elasticsearch core strength"
      why_es_wins := some "Elasticsearch uses inverted indexes optimized for text search. ClickHouse requires LIKE which scans all data."
      clickhouse := "SELECT event_type, department, COUNT(*) as match_count FROM "
        ++ database ++ ".medical_events WHERE event_type LIKE \x27%Surgery%\x27 OR event_type LIKE \x27%Procedure%\x27 GROUP BY event_type, department ORDER BY match_count DESC LIMIT 20"
      elasticsearch := some (jobj
        [("size", jnum 0),
         ("query", jobj
           [("multi_match", jobj
             [("query", jstr "Surgery Procedure"),
              ("fields", jarr [jstr "event_type"]),
              ("type", jstr "best_fields")])]),
         ("aggs", jobj
           [("by_event_type", jobj
             [("terms", jobj [("field", jstr "event_type"), ("size", jnum 20)]),
              ("aggs", jobj
               [("by_department", jobj
                 [("terms", jobj [("field", jstr "department"), ("size", jnum 10)])])])])])])
      es_index := some ( index_prefix ++ "_medical_events") },
    { key := "prefix_search"
      name := "Prefix Search"
      category := "elasticsearch_strength"
      description := "Search by field prefix - inverted index advantage"
      why_es_wins := some "Elasticsearch prefix queries use inverted index. ClickHouse LIKE with leading wildcard cannot use indexes."
      clickhouse := "SELECT medication, COUNT(*) as prescription_count, AVG(cost_usd) as avg_cost FROM "
        ++ database ++ ".prescriptions WHERE medication LIKE \x27Met%\x27 GROUP BY medication ORDER BY prescription_count DESC"
      elasticsearch := some (jobj
        [("size", jnum 0),
         ("query", jobj [("prefix", jobj [("medication", jstr "Met")])]),
         ("aggs", jobj
           [("by_medication", jobj
             [("terms", jobj [("field", jstr "medication"), ("size", jnum 20)]),
              ("aggs", jobj
               [("avg_cost", jobj [("avg", jobj [("field", jstr "cost_usd")])])])])])])
      es_index := some ( index_prefix ++ "_prescriptions") },
    { key := "recent_data_filter"
      name := "Recent Data Filter"
      category := "elasticsearch_strength"
      description := "Filter to recent time window then aggregate - ES caching advantage"
      why_es_wins := some "Elasticsearch filter caching and inverted indexes excel at repeated time-filtered queries."
      clickhouse := "SELECT department, severity, COUNT(*) as event_count, AVG(cost_usd) as avg_cost FROM "
        ++ database ++ ".medical_events WHERE timestamp >= now() - INTERVAL 7 DAY GROUP BY department, severity ORDER BY event_count DESC"
      elasticsearch := some (jobj
        [("size", jnum 0),
         ("query", jobj
           [("range", jobj [("timestamp", jobj [("gte", jstr "now-7d")])])]),
         ("aggs", jobj
           [("by_department", jobj
             [("terms", jobj [("field", jstr "department"), ("size", jnum 20)]),
              ("aggs", jobj
               [("by_severity", jobj
                 [("terms", jobj [("field", jstr "severity"), ("size", jnum 5)]),
                  ("aggs", jobj
                   [("avg_cost", jobj [("avg", jobj [("field", jstr "cost_usd")])])])])])])])])
      es_index := some ( index_prefix ++ "_medical_events") },
    { key := "high_cardinality_terms"
      name := "High-Cardinality Terms"
      category := "elasticsearch_strength"
      description := "Aggregate by high-cardinality field (patient_id) - ES term lookup"
      why_es_wins := some "Elasticsearch doc_values provide efficient term lookups for high-cardinality fields."
      clickhouse := "SELECT patient_id, COUNT(*) as event_count, SUM(cost_usd) as total_cost FROM "
        ++ database ++ ".medical_events GROUP BY patient_id ORDER BY total_cost DESC LIMIT 100"
      elasticsearch := some (jobj
        [("size", jnum 0),
         ("aggs", jobj
           [("top_patients", jobj
             [("terms", jobj
               [("field", jstr "patient_id"), ("size", jnum 100),
                ("order", jobj [("total_cost", jstr "desc")])]),
              ("aggs", jobj
               [("total_cost", jobj [("sum", jobj [("field", jstr "cost_usd")])])])])])])
      es_index := some ( index_prefix ++ "_medical_events") } ]

/-- `get_all_benchmarks(database, index_prefix)`: `dict.update` over the
three (key-disjoint) category dicts preserves insertion order, i.e. list
append. -/
def get_all_benchmarks (database index_prefix : String) : List Benchmark :=
  get_fair_benchmarks database index_prefix
    ++ get_clickhouse_strength_benchmarks database index_prefix
    ++ get_elasticsearch_strength_benchmarks database index_prefix

/-- `main` derives both the ClickHouse database name and the Elasticsearch
index prefix from the requested scale as `healthcare_{scale}`
(lines 540-541); the catalog is a pure function of the scale. -/
def benchmarksForScale (scale : String) : List Benchmark :=
  get_all_benchmarks ("healthcare_" ++ scale) ("healthcare_" ++ scale)

/-! ### Per-benchmark comparison outcome and run accumulation
(`main`, lines 584-698)

Each loop iteration measures ClickHouse, then either short-circuits on the
`es_not_possible` flag (winner `"clickhouse"`, `speedup = None`, a distinct
`not_possible` marker instead of a timing) or measures Elasticsearch and
compares means.  A query raising an exception is modelled by the executor
returning `Except.error`; the source has no `try`/`except` around the loop
body, so an error aborts the whole fold. -/

/-- The `elasticsearch` entry of a stored benchmark result: either a real
timing or the `not_possible` marker dict
`{'avg_time': None, 'not_possible': True, 'limitation': ...}`. -/
inductive EsOutcome where
  | measured (r : EsTimingResult)
  | notPossible (limitation : String)

/-- One entry of `results['benchmarks'][category]` (lines 663-680).
Conditionally-present dict keys are `Option`/`Bool` with absent =
`none`/`false`. -/
structure BenchResult where
  name : String
  description : String
  category : String
  clickhouse : TimingResult
  elasticsearch : EsOutcome
  winner : String
  speedup : Option ℚ
  es_limitation : Option String
  es_not_possible : Bool
  why_ch_wins : Option String
  why_es_wins : Option String

/-- The impossible-on-Elasticsearch branch (lines 631-646): ClickHouse wins
by default, `speedup = None`, and the Elasticsearch side is the distinct
`not_possible` record carrying the limitation text. -/
def impossibleResult (b : Benchmark) (chR : TimingResult) : BenchResult :=
  { name := b.name
    description := b.description
    category := b.category
    clickhouse := chR
    elasticsearch := EsOutcome.notPossible (b.es_limitation.getD "Operation not supported")
    winner := "clickhouse"
    speedup := none
    es_limitation := b.es_limitation
    es_not_possible := b.es_not_possible
    why_ch_wins := b.why_ch_wins
    why_es_wins := b.why_es_wins }

/-- The two-sided branch (lines 648-660): compare mean elapsed times. -/
def comparedResult (b : Benchmark) (chR : TimingResult) (esR : EsTimingResult) : BenchResult :=
  let ws := compareMeans chR.avg_time esR.avg_time
  { name := b.name
    description := b.description
    category := b.category
    clickhouse := chR
    elasticsearch := EsOutcome.measured esR
    winner := ws.1
    speedup := some ws.2
    es_limitation := b.es_limitation
    es_not_possible := b.es_not_possible
    why_ch_wins := b.why_ch_wins
    why_es_wins := b.why_es_wins }

/-- One per-category summary triple
`{'clickhouse_wins': _, 'elasticsearch_wins': _, 'es_not_possible': _}`. -/
structure CatSummary where
  clickhouse_wins : Nat
  elasticsearch_wins : Nat
  es_not_possible : Nat
deriving Repr, DecidableEq

/-- Sum of the three counters of one category summary. -/
def CatSummary.total (c : CatSummary) : Nat :=
  c.clickhouse_wins + c.elasticsearch_wins + c.es_not_possible

/-- The summary update of lines 684-690: `es_not_possible` is counted
separately and never as a ClickHouse win; otherwise the recorded winner's
counter is bumped. -/
def updateCat (c : CatSummary) (esNP : Bool) (winner : String) : CatSummary :=
  if esNP then { c with es_not_possible := c.es_not_possible + 1 }
  else if winner = "clickhouse" then { c with clickhouse_wins := c.clickhouse_wins + 1 }
  else { c with elasticsearch_wins := c.elasticsearch_wins + 1 }

/-- `results['summary'][category] update`: bump the entry whose key is the
benchmark's category (an unknown category would be a Python `KeyError`;
the catalog only produces the three initialised keys). -/
def bumpCat (s : List (String × CatSummary)) (cat : String) (esNP : Bool)
    (winner : String) : List (String × CatSummary) :=
  s.map (fun p => if p.1 = cat then (p.1, updateCat p.2 esNP winner) else p)

/-- Look a category up in the summary association list (first match). -/
def lookupCat (s : List (String × CatSummary)) (cat : String) : CatSummary :=
  match s.find? (fun p => p.1 == cat) with
  | some p => p.2
  | none => ⟨0, 0, 0⟩

/-- The mutable `results` accumulator: per-benchmark outcomes (flattened to
an ordered key-result list; each result still carries its category) plus
the per-category summary. -/
structure RunState where
  benchResults : List (String × BenchResult)
  summary : List (String × CatSummary)

/-- The initial `results` dictionary (lines 584-601): empty outcome maps
and zeroed summaries for the three categories. -/
def initialResults : RunState :=
  { benchResults := []
    summary := [("fair", ⟨0, 0, 0⟩), ("clickhouse_strength", ⟨0, 0, 0⟩),
                ("elasticsearch_strength", ⟨0, 0, 0⟩)] }

/-- Store one benchmark outcome (line 682) and update the summary
(lines 684-690). -/
def addResult (st : RunState) (key : String) (b : Benchmark) (br : BenchResult) : RunState :=
  { benchResults := st.benchResults ++ [(key, br)]
    summary := bumpCat st.summary b.category b.es_not_possible br.winner }

/-- The benchmark loop of `main` (lines 604-690).  `chExec b` / `esExec b`
stand for `run_clickhouse_query` / `run_elasticsearch_query` on benchmark
`b`: `Except.error` models a query raising during any warmup or measured
call.  The source wraps nothing in `try`/`except`, so an exception
propagates out of the loop immediately: no later benchmark runs and no
state survives. -/
def runLoop (chExec : Benchmark → Except String TimingResult)
    (esExec : Benchmark → Except String EsTimingResult) :
    List Benchmark → RunState → Except String RunState
  | [], st => Except.ok st
  | b :: bs, st =>
    match chExec b with
    | Except.error e => Except.error e
    | Except.ok chR =>
      if b.es_not_possible then
        runLoop chExec esExec bs (addResult st b.key b (impossibleResult b chR))
      else
        match esExec b with
        | Except.error e => Except.error e
        | Except.ok esR =>
          runLoop chExec esExec bs (addResult st b.key b (comparedResult b chR esR))

/-! ### Result persistence (`main`, lines 692-698)

`with open(output_file, 'w') as f: json.dump(results, f, ...)` opens the
final output path with truncation and then writes the serialized report in
place — there is no temporary file and no rename.  We model the write as a
trace of file-system operations and a crash as stopping after an arbitrary
prefix of the trace. -/

/-- File-system operations a run can perform on result files. -/
inductive FsOp where
  | truncateFile (path : String)
  | writeFile (path : String) (data : String)
  | renameFile (src : String) (dst : String)

/-- A file system: path to contents (none = absent). -/
def FileSys : Type := String → Option String

/-- Effect of one operation. `truncateFile` is `open(path, 'w')`:
creates/empties the file; `writeFile` appends serialized data. -/
def applyOp (fs : FileSys) : FsOp → FileSys
  | FsOp.truncateFile p => fun q => if q = p then some "" else fs q
  | FsOp.writeFile p d => fun q => if q = p then some ((fs p).getD "" ++ d) else fs q
  | FsOp.renameFile src dst =>
      fun q => if q = dst then fs src else if q = src then none else fs q

/-- Effect of a trace of operations. -/
def applyOps (fs : FileSys) (ops : List FsOp) : FileSys :=
  ops.foldl applyOp fs

/-- The save step of lines 697-698: open-with-truncate at the final output
path, then dump the whole serialized report into it. -/
def saveResults (path content : String) : List FsOp :=
  [FsOp.truncateFile path, FsOp.writeFile path content]

/-- Crash safety of a write trace: however the trace is cut short, the
artifact at `path` is either untouched or holds the complete content. -/
def crashSafe (ops : List FsOp) (path content : String) : Prop :=
  ∀ fs : FileSys, ∀ n : Nat,
    applyOps fs (ops.take n) path = fs path ∨
    applyOps fs (ops.take n) path = some content

/-- The file-system trace of a whole invocation of `main`: the loop itself
touches no files; on success the report is serialized (by `ser`) and saved
once at the end; an exception escapes `main` before the save, so nothing is
written. -/
def mainFsOps (chExec : Benchmark → Except String TimingResult)
    (esExec : Benchmark → Except String EsTimingResult)
    (bs : List Benchmark) (ser : RunState → String) (path : String) : List FsOp :=
  match runLoop chExec esExec bs initialResults with
  | Except.error _ => []
  | Except.ok st => saveResults path (ser st)

/-! ### Concurrency harness (`run_benchmarks.py`, lines 496-606) and its
single-call timing protocol (lines 47-69)

`benchmark_7_concurrent_load` spawns exactly 5 `threading.Thread` workers
per batch, joins all of them, and records the wall-clock span of the whole
batch; it repeats the batch 3 times and aggregates avg/min/max exactly as
`benchmark_clickhouse` does.  Wall-clock time is modelled by a schedule:
each worker `i` starts at `starts i` (after the batch's `start = time.time()`)
and its call takes `lats i` milliseconds; `t.join()` for every thread means
the batch's `end` sample is taken only after every worker has finished. -/

/-- Python `round(x, 2)` on an exact rational: round half to even at two
decimal places. -/
def pyRound (x : ℚ) : ℤ :=
  let f := ⌊x⌋
  let r := x - (f : ℚ)
  if r < 1 / 2 then f
  else if 1 / 2 < r then f + 1
  else if Even f then f else f + 1

/-- Round to two decimal places, Python `round(x, 2)`. -/
def round2 (x : ℚ) : ℚ := (pyRound (100 * x) : ℚ) / 100

/-- The result dict of `benchmark_clickhouse` / `benchmark_7_concurrent_load`
(system, benchmark, avg/min/max ms rounded to 2 decimals, run count). -/
structure SimpleStats where
  system : String
  benchmark : String
  avg_ms : ℚ
  min_ms : ℚ
  max_ms : ℚ
  runs : Nat
deriving Repr, DecidableEq

/-- `benchmark_clickhouse(name, query, runs)` (lines 47-69): `runs` timed
calls, no warmup; `exec i` is the elapsed time of the `i`-th call. -/
def benchmark_clickhouse (exec : Nat → ℚ) (name : String) (runs : Nat) : SimpleStats :=
  let times := (List.range runs).map exec
  { system := "ClickHouse"
    benchmark := name
    avg_ms := round2 (listMean times)
    min_ms := round2 (listMin times)
    max_ms := round2 (listMax times)
    runs := runs }

/-- One concurrent batch: `start = time.time()`; 5 threads are started,
worker `i` beginning its query at `starts i` with latency `lats i`; all 5
are joined; `end = time.time()`. -/
structure BatchRun where
  batchStart : ℚ
  starts : Fin 5 → ℚ
  lats : Fin 5 → ℚ
  batchEnd : ℚ

/-- A schedule is valid when every worker starts after the batch's start
sample and the join barrier returns only after every worker finished. -/
def BatchRun.valid (b : BatchRun) : Prop :=
  ∀ i : Fin 5, b.batchStart ≤ b.starts i ∧ b.starts i + b.lats i ≤ b.batchEnd

instance (b : BatchRun) : Decidable b.valid := by
  unfold BatchRun.valid; infer_instance

/-- The wall-clock span `(end - start) * 1000` recorded for one batch
(latencies are already in milliseconds here). -/
def BatchRun.span (b : BatchRun) : ℚ := b.batchEnd - b.batchStart

/-- The ClickHouse half of `benchmark_7_concurrent_load` (lines 514-546):
3 batch iterations, each contributing the whole batch's wall-clock span as
its single measured value, aggregated like `benchmark_clickhouse`. -/
def benchmark_7_concurrent_load_ch (batches : Fin 3 → BatchRun) : SimpleStats :=
  let times := List.ofFn (fun j : Fin 3 => (batches j).span)
  { system := "ClickHouse"
    benchmark := "Concurrent Load"
    avg_ms := round2 (listMean times)
    min_ms := round2 (listMin times)
    max_ms := round2 (listMax times)
    runs := 3 }

/-! ### Concrete fixtures for witnesses and counterexamples -/

/-- A sample measured timing (the spec's fixed-latency scenario). -/
def sampleTiming : TimingResult :=
  { avg_time := 14, min_time := 10, max_time := 20, std_dev_sq := 30
    runs := 5, warmup_runs := 2, query := "q", row_count := 3 }

/-- A sample measured Elasticsearch timing. -/
def sampleEsTiming : EsTimingResult :=
  { avg_time := 28, min_time := 20, max_time := 40, std_dev_sq := 120
    runs := 5, warmup_runs := 2, hits := 3 }

/-- A benchmark whose ClickHouse query raises (its executor errors). -/
def failingBench : Benchmark :=
  { key := "boom"
    name := "Failing"
    category := "fair"
    description := "first benchmark, its query raises"
    clickhouse := "SELECT malformed"
    elasticsearch := some (JVal.jobj [("size", JVal.jnum 0)])
    es_index := some "healthcare_10m_medical_events" }

/-- A benchmark that would succeed. -/
def okBench : Benchmark :=
  { key := "simple_aggregation"
    name := "Simple Aggregation"
    category := "fair"
    description := "second benchmark, would succeed"
    clickhouse := "SELECT 1"
    elasticsearch := some (JVal.jobj [("size", JVal.jnum 0)])
    es_index := some "healthcare_10m_medical_events" }

/-- Executor in which exactly the `boom` benchmark's ClickHouse query
raises a native backend error. -/
def chExecFail : Benchmark → Except String TimingResult :=
  fun b => if b.key = "boom" then Except.error "DB Exception: syntax error" else Except.ok sampleTiming

/-- Elasticsearch executor that always succeeds. -/
def esExecOk : Benchmark → Except String EsTimingResult :=
  fun _ => Except.ok sampleEsTiming

/-- ClickHouse executor that always succeeds. -/
def chExecOk : Benchmark → Except String TimingResult :=
  fun _ => Except.ok sampleTiming

/-- An impossible-on-Elasticsearch benchmark definition (the catalog's
`complex_join` at scale 10m). -/
def exImpossible : Benchmark :=
  (get_all_benchmarks "healthcare_10m" "healthcare_10m").get ⟨4, by decide⟩

/-- The run state after processing `[exImpossible]` from the initial
state. -/
def stateAfterImpossible : RunState :=
  addResult initialResults exImpossible.key exImpossible
    (impossibleResult exImpossible sampleTiming)

/-- A trivial serializer standing in for `json.dump`. -/
def serializerStub : RunState → String := fun _ => "serialized-report"

/-- The empty file system: no result artifact exists yet. -/
def emptyFs : FileSys := fun _ => none

/-- A concrete valid batch schedule: all five workers start with the batch
and take 10 ms; the join returns at 10 ms. -/
def sampleBatch : BatchRun :=
  { batchStart := 0, starts := fun _ => 0, lats := fun _ => 10, batchEnd := 10 }

/-! ### Helper lemmas on list statistics -/

theorem listMin_le_mem : ∀ (l : List ℚ) (a : ℚ), a ∈ l → listMin l ≤ a := by
  intro l
  induction l with
  | nil => intro a ha; cases ha
  | cons x xs ih =>
    intro a ha
    cases xs with
    | nil =>
      rcases List.mem_singleton.mp ha with rfl
      exact le_refl _
    | cons y ys =>
      rcases List.mem_cons.mp ha with rfl | h
      · exact min_le_left _ _
      · exact le_trans (min_le_right _ _) (ih a h)

theorem le_listMax_mem : ∀ (l : List ℚ) (a : ℚ), a ∈ l → a ≤ listMax l := by
  intro l
  induction l with
  | nil => intro a ha; cases ha
  | cons x xs ih =>
    intro a ha
    cases xs with
    | nil =>
      rcases List.mem_singleton.mp ha with rfl
      exact le_refl _
    | cons y ys =>
      rcases List.mem_cons.mp ha with rfl | h
      · exact le_max_left _ _
      · exact le_trans (ih a h) (le_max_right _ _)

theorem mul_length_le_sum (l : List ℚ) (c : ℚ) (h : ∀ x ∈ l, c ≤ x) :
    (l.length : ℚ) * c ≤ l.sum := by
  induction l with
  | nil => simp
  | cons x xs ih =>
    have hx : c ≤ x := h x (List.mem_cons_self _ _)
    have hxs : (xs.length : ℚ) * c ≤ xs.sum :=
      ih (fun y hy => h y (List.mem_cons_of_mem _ hy))
    simp only [List.sum_cons, List.length_cons]
    push_cast
    linarith

theorem sum_le_mul_length (l : List ℚ) (c : ℚ) (h : ∀ x ∈ l, x ≤ c) :
    l.sum ≤ (l.length : ℚ) * c := by
  induction l with
  | nil => simp
  | cons x xs ih =>
    have hx : x ≤ c := h x (List.mem_cons_self _ _)
    have hxs : xs.sum ≤ (xs.length : ℚ) * c :=
      ih (fun y hy => h y (List.mem_cons_of_mem _ hy))
    simp only [List.sum_cons, List.length_cons]
    push_cast
    linarith

theorem listMin_le_listMean (l : List ℚ) (h : l ≠ []) :
    listMin l ≤ listMean l := by
  have hlen : 0 < l.length := List.length_pos.mpr h
  have hq : (0 : ℚ) < l.length := by exact_mod_cast hlen
  have hs : (l.length : ℚ) * listMin l ≤ l.sum :=
    mul_length_le_sum l (listMin l) (fun x hx => listMin_le_mem l x hx)
  rw [listMean, le_div_iff₀ hq]
  linarith

theorem listMean_le_listMax (l : List ℚ) (h : l ≠ []) :
    listMean l ≤ listMax l := by
  have hlen : 0 < l.length := List.length_pos.mpr h
  have hq : (0 : ℚ) < l.length := by exact_mod_cast hlen
  have hs : l.sum ≤ (l.length : ℚ) * listMax l :=
    sum_le_mul_length l (listMax l) (fun x hx => le_listMax_mem l x hx)
  rw [listMean, div_le_iff₀ hq]
  linarith

/-! ### Helper lemmas on the summary accumulator -/

theorem updateCat_total (c : CatSummary) (esNP : Bool) (w : String) :
    (updateCat c esNP w).total = c.total + 1 := by
  unfold updateCat CatSummary.total
  split_ifs <;> simp <;> omega

theorem bumpCat_keys (s : List (String × CatSummary)) (cat : String)
    (esNP : Bool) (w : String) :
    (bumpCat s cat esNP w).map Prod.fst = s.map Prod.fst := by
  induction s with
  | nil => rfl
  | cons p rest ih =>
    by_cases hp : p.1 = cat <;> simp [bumpCat, hp] <;>
      simpa [bumpCat] using ih

theorem lookupCat_bump_eq (s : List (String × CatSummary)) (cat : String)
    (esNP : Bool) (w : String) (h : cat ∈ s.map Prod.fst) :
    lookupCat (bumpCat s cat esNP w) cat = updateCat (lookupCat s cat) esNP w := by
  induction s with
  | nil => simp at h
  | cons p rest ih =>
    by_cases hp : p.1 = cat
    · simp [bumpCat, lookupCat, List.find?, hp]
    · have hmem : cat ∈ rest.map Prod.fst := by
        rcases List.mem_map.mp h with ⟨q, hq, hqe⟩
        rcases List.mem_cons.mp hq with rfl | hq'
        · exact absurd hqe hp
        · exact List.mem_map.mpr ⟨q, hq', hqe⟩
      have hbeq : (p.1 == cat) = false := by
        simpa [beq_iff_eq] using hp
      simpa [bumpCat, lookupCat, List.find?, hp, hbeq] using ih hmem

theorem lookupCat_bump_ne (s : List (String × CatSummary)) (cat cat' : String)
    (esNP : Bool) (w : String) (hne : cat ≠ cat') :
    lookupCat (bumpCat s cat' esNP w) cat = lookupCat s cat := by
  induction s with
  | nil => rfl
  | cons p rest ih =>
    have hq1 : (if p.1 = cat' then (p.1, updateCat p.2 esNP w) else p).1 = p.1 := by
      split <;> rfl
    by_cases hp : p.1 = cat
    · have hp' : p.1 ≠ cat' := by rw [hp]; exact hne
      have hq : (if p.1 = cat' then (p.1, updateCat p.2 esNP w) else p) = p :=
        if_neg hp'
      simp only [bumpCat, List.map_cons] at *
      rw [hq]
      unfold lookupCat
      rw [List.find?_cons_of_pos _ (by simpa [beq_iff_eq] using hp),
        List.find?_cons_of_pos _ (by simpa [beq_iff_eq] using hp)]
    · have hbeq : ((if p.1 = cat' then (p.1, updateCat p.2 esNP w) else p).1 == cat)
          = false := by
        rw [hq1]; simpa [beq_iff_eq] using hp
      simp only [bumpCat, List.map_cons]
      unfold lookupCat
      rw [List.find?_cons_of_neg _ (by simp [hbeq]),
        List.find?_cons_of_neg _ (by simpa [beq_iff_eq] using hp)]
      exact ih

theorem runLoop_summary_total (chE : Benchmark → Except String TimingResult)
    (esE : Benchmark → Except String EsTimingResult) (cat : String) :
    ∀ (bs : List Benchmark) (st st' : RunState),
      cat ∈ st.summary.map Prod.fst →
      runLoop chE esE bs st = Except.ok st' →
      (lookupCat st'.summary cat).total
        = (lookupCat st.summary cat).total
          + (bs.filter (fun b => b.category == cat)).length := by
  intro bs
  induction bs with
  | nil =>
    intro st st' hmem hrun
    simp only [runLoop] at hrun
    cases hrun
    simp
  | cons b tl ih =>
    intro st st' hmem hrun
    cases hch : chE b with
    | error e => simp [runLoop, hch] at hrun
    | ok chR =>
      have step :
          ∀ br : BenchResult,
            runLoop chE esE tl (addResult st b.key b br) = Except.ok st' →
            br.winner = br.winner →
            (lookupCat st'.summary cat).total
              = (lookupCat st.summary cat).total
                + ((b :: tl).filter (fun x => x.category == cat)).length := by
        intro br hrun' _
        have hmem' : cat ∈ (addResult st b.key b br).summary.map Prod.fst := by
          simpa [addResult, bumpCat_keys] using hmem
        have htl := ih (addResult st b.key b br) st' hmem' hrun'
        by_cases hcat : b.category = cat
        · have : lookupCat (addResult st b.key b br).summary cat
              = updateCat (lookupCat st.summary cat) b.es_not_possible br.winner := by
            simp only [addResult]
            rw [← hcat] at hmem ⊢
            exact lookupCat_bump_eq st.summary b.category b.es_not_possible br.winner
              (by simpa using hmem)
          rw [htl, this, updateCat_total]
          have hfil : ((b :: tl).filter (fun x => x.category == cat))
              = b :: (tl.filter (fun x => x.category == cat)) := by
            simp [List.filter_cons, hcat]
          rw [hfil]
          simp
          omega
        · have : lookupCat (addResult st b.key b br).summary cat
              = lookupCat st.summary cat := by
            simp only [addResult]
            exact lookupCat_bump_ne st.summary cat b.category b.es_not_possible br.winner
              (fun hc => hcat hc.symm)
          rw [htl, this]
          have hfil : ((b :: tl).filter (fun x => x.category == cat))
              = tl.filter (fun x => x.category == cat) := by
            simp [List.filter_cons, hcat]
          rw [hfil]
      by_cases hnp : b.es_not_possible
      · simp only [runLoop, hch, hnp, if_true] at hrun
        exact step _ hrun rfl
      · simp only [runLoop, hch, hnp, if_false] at hrun
        cases hes : esE b with
        | error e => simp [hes] at hrun
        | ok esR =>
          simp only [hes] at hrun
          exact step _ hrun rfl

/-! ### Claim theorems -/

/-- C1: for every benchmark definition flagged `es_not_possible`, the
verdict produced by the comparison step declares ClickHouse (side A) the
winner unconditionally, its `speedup` is explicitly absent (`none`, the
Python `None` — not any number), the impossible case is signalled by the
distinct `es_not_possible` flag on the stored result (and by the distinct
`not_possible` record on the Elasticsearch side), and the run loop stores
exactly this one-sided verdict without ever invoking the Elasticsearch
executor. -/
theorem C1_impossible_verdict (b : Benchmark) (chR : TimingResult)
    (chE : Benchmark → Except String TimingResult)
    (esE : Benchmark → Except String EsTimingResult)
    (bs : List Benchmark) (st : RunState)
    (hflag : b.es_not_possible = true) (hch : chE b = Except.ok chR) :
    (impossibleResult b chR).winner = "clickhouse"
    ∧ (impossibleResult b chR).speedup = none
    ∧ (impossibleResult b chR).es_not_possible = true
    ∧ (∃ lim, (impossibleResult b chR).elasticsearch = EsOutcome.notPossible lim)
    ∧ runLoop chE esE (b :: bs) st
        = runLoop chE esE bs (addResult st b.key b (impossibleResult b chR)) := by
  refine ⟨rfl, rfl, hflag, ⟨_, rfl⟩, ?_⟩
  simp [runLoop, hch, hflag]

/-- C1 witness: the catalog's `complex_join` definition at scale 10m. -/
theorem C1_witness :
    (impossibleResult exImpossible sampleTiming).winner = "clickhouse"
    ∧ (impossibleResult exImpossible sampleTiming).speedup = none
    ∧ (impossibleResult exImpossible sampleTiming).es_not_possible = true
    ∧ (∃ lim, (impossibleResult exImpossible sampleTiming).elasticsearch
        = EsOutcome.notPossible lim)
    ∧ runLoop chExecOk esExecOk (exImpossible :: []) initialResults
        = runLoop chExecOk esExecOk []
            (addResult initialResults exImpossible.key exImpossible
              (impossibleResult exImpossible sampleTiming)) :=
  C1_impossible_verdict exImpossible sampleTiming chExecOk esExecOk [] initialResults
    rfl rfl

/-- C2: for a measurement with `runs = n ≥ 1`, `avg_time` is the arithmetic
mean, `min_time`/`max_time` the minimum/maximum (hence min ≤ mean ≤ max),
and the standard deviation is the sample (n−1 divisor) one, exactly 0 when
n = 1; for the fixed measured latencies [10, 20, 10, 20, 10] ms the result
is mean 14, min 10, max 20, std dev √30 (≈ 5.48, strictly between 5.47 and
5.48). -/
theorem C2_timing_statistics (exec : Nat → ℚ × Nat) (query : String)
    (warmup runs : Nat) (hruns : 1 ≤ runs) :
    (run_clickhouse_query exec query warmup runs).min_time
        ≤ (run_clickhouse_query exec query warmup runs).avg_time
    ∧ (run_clickhouse_query exec query warmup runs).avg_time
        ≤ (run_clickhouse_query exec query warmup runs).max_time
    ∧ (runs = 1 → (run_clickhouse_query exec query warmup runs).std_dev_sq = 0)
    ∧ (run_clickhouse_query mockLatencies "q" 2 5).avg_time = 14
    ∧ (run_clickhouse_query mockLatencies "q" 2 5).min_time = 10
    ∧ (run_clickhouse_query mockLatencies "q" 2 5).max_time = 20
    ∧ (run_clickhouse_query mockLatencies "q" 2 5).std_dev_sq = 30
    ∧ Real.sqrt ((run_clickhouse_query mockLatencies "q" 2 5).std_dev_sq : ℚ)
        = Real.sqrt 30
    ∧ (5.47 : ℝ) < Real.sqrt ((run_clickhouse_query mockLatencies "q" 2 5).std_dev_sq : ℚ)
    ∧ Real.sqrt ((run_clickhouse_query mockLatencies "q" 2 5).std_dev_sq : ℚ) < 5.48 := by
  have htimes : ((List.range runs).map (fun i => (exec (warmup + i)).1)) ≠ [] := by
    simp only [ne_eq, List.map_eq_nil_iff, List.range_eq_nil]
    omega
  have hTimes : (List.range 5).map (fun i => (mockLatencies (2 + i)).1)
      = [10, 20, 10, 20, 10] := rfl
  have havg : (run_clickhouse_query mockLatencies "q" 2 5).avg_time = 14 := by
    simp only [run_clickhouse_query, hTimes]
    norm_num [listMean, List.sum_cons, List.sum_nil]
  have hmin : (run_clickhouse_query mockLatencies "q" 2 5).min_time = 10 := by
    simp only [run_clickhouse_query, hTimes]
    norm_num [listMin, min_def]
  have hmax : (run_clickhouse_query mockLatencies "q" 2 5).max_time = 20 := by
    simp only [run_clickhouse_query, hTimes]
    norm_num [listMax, max_def]
  have hsq : (run_clickhouse_query mockLatencies "q" 2 5).std_dev_sq = 30 := by
    simp only [run_clickhouse_query, hTimes]
    norm_num [stdevSq, listMean, List.sum_cons, List.sum_nil]
  have hsqrt : Real.sqrt ((run_clickhouse_query mockLatencies "q" 2 5).std_dev_sq : ℚ)
      = Real.sqrt 30 := by rw [hsq]; norm_num
  refine ⟨?_, ?_, ?_, havg, hmin, hmax, hsq, hsqrt, ?_, ?_⟩
  · exact listMin_le_listMean _ htimes
  · exact listMean_le_listMax _ htimes
  · intro h1
    subst h1
    simp [run_clickhouse_query]
  · rw [hsqrt]
    exact (Real.lt_sqrt (by norm_num)).mpr (by norm_num)
  · rw [hsqrt]
    exact (Real.sqrt_lt' (by norm_num)).mpr (by norm_num)

/-- C2 witness: the theorem at the mock executor with 2 warmup and 5
measured runs. -/
theorem C2_witness :
    (run_clickhouse_query mockLatencies "q" 2 5).min_time
        ≤ (run_clickhouse_query mockLatencies "q" 2 5).avg_time
    ∧ (run_clickhouse_query mockLatencies "q" 2 5).avg_time
        ≤ (run_clickhouse_query mockLatencies "q" 2 5).max_time
    ∧ (5 = 1 → (run_clickhouse_query mockLatencies "q" 2 5).std_dev_sq = 0)
    ∧ (run_clickhouse_query mockLatencies "q" 2 5).avg_time = 14
    ∧ (run_clickhouse_query mockLatencies "q" 2 5).min_time = 10
    ∧ (run_clickhouse_query mockLatencies "q" 2 5).max_time = 20
    ∧ (run_clickhouse_query mockLatencies "q" 2 5).std_dev_sq = 30
    ∧ Real.sqrt ((run_clickhouse_query mockLatencies "q" 2 5).std_dev_sq : ℚ)
        = Real.sqrt 30
    ∧ (5.47 : ℝ) < Real.sqrt ((run_clickhouse_query mockLatencies "q" 2 5).std_dev_sq : ℚ)
    ∧ Real.sqrt ((run_clickhouse_query mockLatencies "q" 2 5).std_dev_sq : ℚ) < 5.48 :=
  C2_timing_statistics mockLatencies "q" 2 5 (by norm_num)

/-- C3: when both sides carry a (positive) measured mean, the side with the
strictly smaller mean wins, the speedup is slower mean / faster mean, so it
is ≥ 1 and equals 1 exactly when the means are equal; 50 ms vs 100 ms gives
winner ClickHouse with speedup 2. -/
theorem C3_two_sided_comparison (ch es : ℚ) (hch : 0 < ch) (hes : 0 < es) :
    (ch < es → compareMeans ch es = ("clickhouse", es / ch))
    ∧ (es < ch → compareMeans ch es = ("elasticsearch", ch / es))
    ∧ 1 ≤ (compareMeans ch es).2
    ∧ ((compareMeans ch es).2 = 1 ↔ ch = es)
    ∧ compareMeans 50 100 = ("clickhouse", 2) := by
  refine ⟨?_, ?_, ?_, ?_, by norm_num [compareMeans]⟩
  · intro hlt
    simp [compareMeans, hlt]
  · intro hlt
    simp [compareMeans, not_lt.mpr (le_of_lt hlt)]
  · unfold compareMeans
    by_cases hlt : ch < es
    · rw [if_pos hlt]
      exact (one_le_div hch).mpr (le_of_lt hlt)
    · rw [if_neg hlt]
      exact (one_le_div hes).mpr (not_lt.mp hlt)
  · unfold compareMeans
    by_cases hlt : ch < es
    · rw [if_pos hlt]
      show es / ch = 1 ↔ ch = es
      rw [div_eq_one_iff_eq (ne_of_gt hch)]
      exact eq_comm
    · rw [if_neg hlt]
      show ch / es = 1 ↔ ch = es
      exact div_eq_one_iff_eq (ne_of_gt hes)

/-- C3 witness: the 50 ms vs 100 ms scenario. -/
theorem C3_witness :
    ((50 : ℚ) < 100 → compareMeans 50 100 = ("clickhouse", (100 : ℚ) / 50))
    ∧ ((100 : ℚ) < 50 → compareMeans 50 100 = ("elasticsearch", (50 : ℚ) / 100))
    ∧ 1 ≤ (compareMeans 50 100).2
    ∧ ((compareMeans 50 100).2 = 1 ↔ (50 : ℚ) = 100)
    ∧ compareMeans 50 100 = ("clickhouse", 2) :=
  C3_two_sided_comparison 50 100 (by norm_num) (by norm_num)

/-- C4 counterexample: at an exact tie (both means 50 ms) the code's
`else` branch reports `"elasticsearch"` — the second-listed side, side B —
not the first-listed ClickHouse side the claim requires. -/
theorem C4_counterexample :
    compareMeans 50 50 = ("elasticsearch", 1)
    ∧ (compareMeans 50 50).1 ≠ "clickhouse" := by
  refine ⟨by norm_num [compareMeans], ?_⟩
  have h1 : (compareMeans 50 50).1 = "elasticsearch" := by norm_num [compareMeans]
  rw [h1]
  decide

/-- C4 (amended): if the two means are exactly equal, the winner is
deterministically the second-listed side (Elasticsearch) with
speedup 1.0 — the `ch < es` comparison fails on a tie, so the `else`
branch runs. -/
theorem C4_tie_goes_to_elasticsearch (m : ℚ) (hm : 0 < m) :
    compareMeans m m = ("elasticsearch", 1) := by
  unfold compareMeans
  rw [if_neg (lt_irrefl m), div_self (ne_of_gt hm)]

/-- C4 witness: a tie at 50 ms. -/
theorem C4_witness : compareMeans 50 50 = ("elasticsearch", 1) :=
  C4_tie_goes_to_elasticsearch 50 (by norm_num)

/-- If any benchmark in the list has a failing ClickHouse measurement, or a
failing Elasticsearch measurement on its two-sided path, the whole loop
returns that error: nothing catches it. -/
theorem runLoop_error_of_mem (chE : Benchmark → Except String TimingResult)
    (esE : Benchmark → Except String EsTimingResult) (b : Benchmark)
    (hfail : (∃ e, chE b = Except.error e)
      ∨ (b.es_not_possible = false ∧ ∃ e, esE b = Except.error e)) :
    ∀ (bs : List Benchmark), b ∈ bs → ∀ st : RunState,
      ∃ e, runLoop chE esE bs st = Except.error e := by
  intro bs
  induction bs with
  | nil => intro h; cases h
  | cons hd tl ih =>
    intro hb st
    rcases List.mem_cons.mp hb with rfl | hmem
    · rcases hfail with ⟨e, he⟩ | ⟨hnp, e, he⟩
      · exact ⟨e, by simp [runLoop, he]⟩
      · cases hch : chE b with
        | error e' => exact ⟨e', by simp [runLoop, hch]⟩
        | ok chR => exact ⟨e, by simp [runLoop, hch, hnp, he]⟩
    · cases hch : chE hd with
      | error e' => exact ⟨e', by simp [runLoop, hch]⟩
      | ok chR =>
        by_cases hnp : hd.es_not_possible
        · obtain ⟨e, he⟩ := ih hmem (addResult st hd.key hd (impossibleResult hd chR))
          exact ⟨e, by simp [runLoop, hch, hnp, he]⟩
        · cases hes : esE hd with
          | error e' => exact ⟨e', by simp [runLoop, hch, hnp, hes]⟩
          | ok esR =>
            obtain ⟨e, he⟩ := ih hmem (addResult st hd.key hd (comparedResult hd chR esR))
            exact ⟨e, by simp [runLoop, hch, hnp, hes, he]⟩

/-- C5 (amended): a query-execution error in any single warmup or measured
call is indeed not retried and not swallowed, but it does NOT abort only
that benchmark: it aborts the entire run.  The loop body has no
`try`/`except`, so the error propagates out of `main`, subsequent
definitions never execute, and no report file is written at all — not even
one covering the benchmarks that had already succeeded. -/
theorem C5_query_error_aborts_run (chE : Benchmark → Except String TimingResult)
    (esE : Benchmark → Except String EsTimingResult)
    (bs : List Benchmark) (st : RunState) (b : Benchmark)
    (ser : RunState → String) (path : String)
    (hb : b ∈ bs)
    (hfail : (∃ e, chE b = Except.error e)
      ∨ (b.es_not_possible = false ∧ ∃ e, esE b = Except.error e)) :
    (∃ e, runLoop chE esE bs st = Except.error e)
    ∧ mainFsOps chE esE bs ser path = [] := by
  have key := runLoop_error_of_mem chE esE b hfail bs hb
  refine ⟨key st, ?_⟩
  obtain ⟨e, he⟩ := key initialResults
  simp [mainFsOps, he]

/-- C5 witness: a two-benchmark run whose first benchmark's ClickHouse
query raises. -/
theorem C5_witness :
    (∃ e, runLoop chExecFail esExecOk [failingBench, okBench] initialResults
      = Except.error e)
    ∧ mainFsOps chExecFail esExecOk [failingBench, okBench] serializerStub
        "results/healthcare_10m_benchmark_results.json" = [] :=
  C5_query_error_aborts_run chExecFail esExecOk [failingBench, okBench]
    initialResults failingBench serializerStub
    "results/healthcare_10m_benchmark_results.json"
    (List.mem_cons_self _ _) (Or.inl ⟨"DB Exception: syntax error", rfl⟩)

/-- C5 counterexample: the claim as stated is false on the code.  In the
run `[failingBench, okBench]` the second benchmark would succeed on both
backends, yet the run aborts with the first benchmark's error: the failure
is not confined to the offending definition, the loop does not continue,
and there is no final report covering the benchmark that succeeded. -/
theorem C5_counterexample :
    chExecFail okBench = Except.ok sampleTiming
    ∧ esExecOk okBench = Except.ok sampleEsTiming
    ∧ runLoop chExecFail esExecOk [failingBench, okBench] initialResults
        = Except.error "DB Exception: syntax error" := by
  refine ⟨?_, rfl, ?_⟩
  · simp [chExecFail, okBench]
  · simp [runLoop, chExecFail, failingBench]

/-- C6 (amended): the run writes the complete serialized report exactly
once, at the end of the run — the benchmark loop performs no file
operations, and a completed save leaves exactly the full content at the
output path — but the write is NOT atomic: `open(output_file, 'w')`
truncates the final artifact path in place before `json.dump` writes into
it, with no temporary file and no rename, so a crash between the
truncation and the completed write leaves an empty (hence unparseable)
artifact at the output path. -/
theorem C6_write_once_not_atomic (fs : FileSys) (path content : String)
    (chE : Benchmark → Except String TimingResult)
    (esE : Benchmark → Except String EsTimingResult)
    (bs : List Benchmark) (ser : RunState → String) (st' : RunState)
    (hne : content ≠ "") (hfresh : fs path = none)
    (hok : runLoop chE esE bs initialResults = Except.ok st') :
    applyOps fs (saveResults path content) path = some content
    ∧ mainFsOps chE esE bs ser path = saveResults path (ser st')
    ∧ ¬ crashSafe (saveResults path content) path content := by
  refine ⟨?_, ?_, ?_⟩
  · simp [applyOps, saveResults, applyOp]
  · simp [mainFsOps, hok]
  · intro h
    have h2 := h fs 1
    simp only [saveResults, List.take_succ_cons, List.take_zero, applyOps,
      List.foldl_cons, List.foldl_nil, applyOp, if_pos rfl] at h2
    rcases h2 with h2 | h2
    · rw [hfresh] at h2
      exact Option.some_ne_none "" h2
    · exact hne (Option.some.inj h2).symm

/-- C6 witness: a concrete successful one-benchmark run, an empty file
system, and a nonempty report content. -/
theorem C6_witness :
    applyOps emptyFs
        (saveResults "results/healthcare_10m_benchmark_results.json"
          "serialized-report")
        "results/healthcare_10m_benchmark_results.json" = some "serialized-report"
    ∧ mainFsOps chExecOk esExecOk [exImpossible] serializerStub
        "results/healthcare_10m_benchmark_results.json"
        = saveResults "results/healthcare_10m_benchmark_results.json"
            (serializerStub stateAfterImpossible)
    ∧ ¬ crashSafe
        (saveResults "results/healthcare_10m_benchmark_results.json"
          "serialized-report")
        "results/healthcare_10m_benchmark_results.json" "serialized-report" :=
  C6_write_once_not_atomic emptyFs "results/healthcare_10m_benchmark_results.json"
    "serialized-report" chExecOk esExecOk [exImpossible] serializerStub
    stateAfterImpossible (by decide) rfl rfl

/-- C6 counterexample: the save trace of the code is not crash-safe at the
concrete output path — cutting it after the `open(.., 'w')` truncation
leaves an empty artifact, neither the untouched old state nor the complete
report. -/
theorem C6_counterexample :
    ¬ crashSafe
        (saveResults "results/healthcare_10m_benchmark_results.json"
          "serialized-report")
        "results/healthcare_10m_benchmark_results.json" "serialized-report" := by
  intro h
  have h2 := h emptyFs 1
  simp only [saveResults, List.take_succ_cons, List.take_zero, applyOps,
    List.foldl_cons, List.foldl_nil, applyOp, if_pos rfl, emptyFs] at h2
  rcases h2 with h2 | h2
  · exact Option.some_ne_none "" h2
  · have : "" = "serialized-report" := Option.some.inj h2
    simp at this

/-- C7: the benchmark catalog is a pure function of the scale parameter —
it is a plain Lean function over the substituted dataset/table/index name,
touching no connection — so two invocations with the same scale yield
structurally identical ordered definitions, and the keys and categories of
the 12 definitions are fixed independently of the scale. -/
theorem C7_catalog_pure (s1 s2 : String) (h : s1 = s2) :
    benchmarksForScale s1 = benchmarksForScale s2
    ∧ (benchmarksForScale s1).map Benchmark.key
        = ["simple_aggregation", "multi_field_groupby", "range_filter_agg",
           "cardinality_count", "complex_join", "time_series_window",
           "subquery_filter", "advanced_sql", "fulltext_search", "prefix_search",
           "recent_data_filter", "high_cardinality_terms"]
    ∧ (benchmarksForScale s1).map Benchmark.category
        = ["fair", "fair", "fair", "fair",
           "clickhouse_strength", "clickhouse_strength", "clickhouse_strength",
           "clickhouse_strength", "elasticsearch_strength", "elasticsearch_strength",
           "elasticsearch_strength", "elasticsearch_strength"] := by
  subst h
  exact ⟨rfl, rfl, rfl⟩

/-- C7 witness: two invocations at scale 10m. -/
theorem C7_witness :
    benchmarksForScale "10m" = benchmarksForScale "10m"
    ∧ (benchmarksForScale "10m").map Benchmark.key
        = ["simple_aggregation", "multi_field_groupby", "range_filter_agg",
           "cardinality_count", "complex_join", "time_series_window",
           "subquery_filter", "advanced_sql", "fulltext_search", "prefix_search",
           "recent_data_filter", "high_cardinality_terms"]
    ∧ (benchmarksForScale "10m").map Benchmark.category
        = ["fair", "fair", "fair", "fair",
           "clickhouse_strength", "clickhouse_strength", "clickhouse_strength",
           "clickhouse_strength", "elasticsearch_strength", "elasticsearch_strength",
           "elasticsearch_strength", "elasticsearch_strength"] :=
  C7_catalog_pure "10m" "10m" rfl

/-- C8: every catalog definition flagged impossible-on-Elasticsearch
carries no engine-B request at all (`elasticsearch = None`, and no target
index either) — which is what forces the comparison step into the
one-sided path — and its limitation text is present and non-empty. -/
theorem C8_impossible_definitions (db idx : String) (b : Benchmark)
    (hb : b ∈ get_all_benchmarks db idx) (hflag : b.es_not_possible = true) :
    b.elasticsearch = none ∧ b.es_index = none
    ∧ ∃ s, b.es_limitation = some s ∧ s ≠ "" := by
  simp only [get_all_benchmarks, get_fair_benchmarks,
    get_clickhouse_strength_benchmarks, get_elasticsearch_strength_benchmarks,
    List.mem_append, List.mem_cons, List.not_mem_nil, or_false] at hb
  rcases hb with ((rfl | rfl | rfl | rfl) | (rfl | rfl | rfl | rfl))
    | (rfl | rfl | rfl | rfl)
  all_goals first
    | exact Bool.noConfusion hflag
    | (refine ⟨rfl, rfl, _, rfl, ?_⟩; decide)

/-- C8 witness: the `complex_join` definition of the scale-10m catalog. -/
theorem C8_witness :
    exImpossible.elasticsearch = none ∧ exImpossible.es_index = none
    ∧ ∃ s, exImpossible.es_limitation = some s ∧ s ≠ "" :=
  C8_impossible_definitions "healthcare_10m" "healthcare_10m" exImpossible
    (List.get_mem _ _ _) rfl

/-- C9: the concurrency harness launches exactly 5 parallel workers per
batch (the `Fin 5` worker index) and joins all of them before sampling the
batch end time; it repeats the batch 3 times, each iteration contributing
the whole batch's wall-clock span as its single measured value, and it
aggregates those values exactly as the single-call timing protocol
`benchmark_clickhouse` of the same runner does (equality of the full result
record); and under any valid schedule each batch's reported span is at
least every individual worker's single-call elapsed time for the same
query — never shorter. -/
theorem C9_concurrency_harness (batches : Fin 3 → BatchRun)
    (hv : ∀ j, (batches j).valid) :
    benchmark_7_concurrent_load_ch batches
      = benchmark_clickhouse
          (fun i => if h : i < 3 then (batches ⟨i, h⟩).span else 0)
          "Concurrent Load" 3
    ∧ (∀ j i, (batches j).lats i ≤ (batches j).span) := by
  constructor
  · have hlist : (List.range 3).map
        (fun i => if h : i < 3 then (batches ⟨i, h⟩).span else 0)
        = List.ofFn (fun j : Fin 3 => (batches j).span) := by
      simp [List.range_succ, List.ofFn_succ]
    simp only [benchmark_7_concurrent_load_ch, benchmark_clickhouse, hlist]
  · intro j i
    obtain ⟨h1, h2⟩ := hv j i
    unfold BatchRun.span
    linarith

/-- C9 witness: three identical valid batches of five 10 ms workers. -/
theorem C9_witness :
    benchmark_7_concurrent_load_ch (fun _ => sampleBatch)
      = benchmark_clickhouse
          (fun i => if h : i < 3 then ((fun _ : Fin 3 => sampleBatch) ⟨i, h⟩).span else 0)
          "Concurrent Load" 3
    ∧ (∀ j i, ((fun _ : Fin 3 => sampleBatch) j).lats i
        ≤ ((fun _ : Fin 3 => sampleBatch) j).span) :=
  C9_concurrency_harness (fun _ => sampleBatch)
    (fun _ =>
      ((by intro i
           exact ⟨by norm_num [sampleBatch], by norm_num [sampleBatch]⟩) :
        sampleBatch.valid))

/-- C10: each processed benchmark increments exactly one of the three
per-category summary counters (the total grows by exactly one), a
benchmark flagged impossible-on-Elasticsearch is counted under
`es_not_possible` and never under `clickhouse_wins` even though its stored
per-benchmark winner is `"clickhouse"`, and over a whole successful run the
counter total of each category equals the number of benchmarks processed in
that category. -/
theorem C10_summary_partition (c : CatSummary) (esNP : Bool) (w : String)
    (b0 : Benchmark) (chR0 : TimingResult)
    (chE : Benchmark → Except String TimingResult)
    (esE : Benchmark → Except String EsTimingResult)
    (bs : List Benchmark) (st' : RunState) (cat : String)
    (_hb0 : b0.es_not_possible = true)
    (hcat : cat = "fair" ∨ cat = "clickhouse_strength"
      ∨ cat = "elasticsearch_strength")
    (hrun : runLoop chE esE bs initialResults = Except.ok st') :
    (updateCat c esNP w).total = c.total + 1
    ∧ (updateCat c true w).clickhouse_wins = c.clickhouse_wins
    ∧ (updateCat c true w).es_not_possible = c.es_not_possible + 1
    ∧ (impossibleResult b0 chR0).winner = "clickhouse"
    ∧ (lookupCat st'.summary cat).total
        = (bs.filter (fun b => b.category == cat)).length := by
  refine ⟨updateCat_total c esNP w, by simp [updateCat], by simp [updateCat],
    rfl, ?_⟩
  have hmem : cat ∈ initialResults.summary.map Prod.fst := by
    rcases hcat with rfl | rfl | rfl <;> simp [initialResults]
  have h := runLoop_summary_total chE esE cat bs initialResults st' hmem hrun
  have hinit : (lookupCat initialResults.summary cat).total = 0 := by
    rcases hcat with rfl | rfl | rfl <;> rfl
  rw [h, hinit]
  omega

/-- C10 witness: a run consisting of the impossible `complex_join`
benchmark, counted under `es_not_possible` while its stored winner is
`"clickhouse"`. -/
theorem C10_witness :
    (updateCat ⟨0, 0, 0⟩ true "clickhouse").total
        = (⟨0, 0, 0⟩ : CatSummary).total + 1
    ∧ (updateCat ⟨0, 0, 0⟩ true "clickhouse").clickhouse_wins
        = (⟨0, 0, 0⟩ : CatSummary).clickhouse_wins
    ∧ (updateCat ⟨0, 0, 0⟩ true "clickhouse").es_not_possible
        = (⟨0, 0, 0⟩ : CatSummary).es_not_possible + 1
    ∧ (impossibleResult exImpossible sampleTiming).winner = "clickhouse"
    ∧ (lookupCat stateAfterImpossible.summary "clickhouse_strength").total
        = (([exImpossible] : List Benchmark).filter
            (fun b => b.category == "clickhouse_strength")).length :=
  C10_summary_partition ⟨0, 0, 0⟩ true "clickhouse" exImpossible sampleTiming
    chExecOk esExecOk [exImpossible] stateAfterImpossible "clickhouse_strength"
    rfl (Or.inr (Or.inl rfl)) rfl
